import Mathlib

/-!
Verification of the AgriIntel360 alerting and notification subsystem.

This file gives a shallow embedding, in Lean, of the alert condition
evaluator, the alert store operations, the multi-channel notification
dispatcher (backend/app/services/notifications.py) and the WebSocket
connection registry (backend/app/api/websocket.py), together with theorems
settling the specification claims about them.

Modelling conventions:
  - Python datetimes are modelled as seconds (Nat); `timedelta(hours=24)` is
    `24 * 3600`.
  - Python `None` return values are modelled as `Option.none`.
  - The SQL alert table is modelled as a list of `AlertRecord`, appended on
    commit; fresh identifiers are the current list length.
  - A WebSocket connection is a `Conn` carrying its client state
    (`connected` models `client_state == WebSocketState.CONNECTED`) and
    whether `send_text` raises (`send_fails`).
  - The registry dict `active_connections: Dict[str, List[WebSocket]]` is an
    insertion-ordered association list, as CPython dicts are.
-/

set_option autoImplicit false

namespace AgriIntel

/-! ## Condition evaluator (`AlertCondition`, notifications.py lines 59-87) -/

/-- Embedding of `AlertCondition.__init__`: metric name, operator string,
threshold value and optional minimum duration. Threshold and observed values
are numeric (`float` in the source); we model them as rationals, on which the
comparisons `> < >= <= == !=` agree with the source semantics for the values
involved. -/
structure AlertCondition where
  metric : String
  operator : String
  value : Rat
  duration_minutes : Nat
deriving Repr, DecidableEq

/-- Embedding of `AlertCondition.evaluate`: the source looks the operator
string up in a fixed dict of six comparison lambdas and returns `False` when
`operators.get` misses (the fail-safe branch `if not op_func: return False`).
The dict lookup is modelled as a chain of string comparisons. -/
def AlertCondition.evaluate (c : AlertCondition) (current_value : Rat) : Bool :=
  if c.operator = ">" then decide (current_value > c.value)
  else if c.operator = "<" then decide (current_value < c.value)
  else if c.operator = ">=" then decide (current_value ≥ c.value)
  else if c.operator = "<=" then decide (current_value ≤ c.value)
  else if c.operator = "==" then decide (current_value = c.value)
  else if c.operator = "!=" then decide (current_value ≠ c.value)
  else false

/-! ## Alert store (`AlertService`, notifications.py lines 317-565) -/

/-- Embedding of the `AlertType` str-enum. -/
inductive AlertType
  | weather | price | yieldT | drought | flood | pest | market | technical | system
deriving Repr, DecidableEq

/-- The `.value` string of each `AlertType` member. -/
def AlertType.toVal : AlertType → String
  | .weather => "weather" | .price => "price" | .yieldT => "yield"
  | .drought => "drought" | .flood => "flood" | .pest => "pest"
  | .market => "market" | .technical => "technical" | .system => "system"

/-- Embedding of the `AlertSeverity` str-enum. -/
inductive AlertSeverity
  | info | warning | critical | emergency
deriving Repr, DecidableEq

/-- The `.value` string of each `AlertSeverity` member. -/
def AlertSeverity.toVal : AlertSeverity → String
  | .info => "info" | .warning => "warning"
  | .critical => "critical" | .emergency => "emergency"

/-- Embedding of one row of the `alerts` table (models/sql/agricultural.py,
class `Alert`): the columns that the alerting subsystem reads or writes.
`created_at` is filled by the database clock at insert (`server_default=func.now()`);
we model the database clock and the application clock (`datetime.now()` in
`create_alert`) as the same `now` parameter, which is what the specification
phrase "within clock tolerance" licenses. -/
structure AlertRecord where
  id : Nat
  title : String
  message : String
  alert_type : String
  severity : String
  data_source : List (String × String)
  is_active : Bool
  is_read : Bool
  created_at : Nat
  expires_at : Nat
deriving Repr, DecidableEq

/-- The persisted alerts table. -/
abbrev AlertStore := List AlertRecord

/-- Embedding of `AlertService.create_alert` (notifications.py lines 324-376).
The source performs no validation of any argument: it constructs the `Alert`
row directly from its parameters, with
`expires_at=expires_at or datetime.now() + timedelta(hours=24)` (a datetime is
always truthy, so this is exactly `Option.getD`), commits it, and returns the
new id. The subsequent cache insertion and `_trigger_notifications` call
cannot alter the alerts table (`_trigger_notifications` catches every
exception internally and only sends notifications), so the store-level effect
is the single append; the returned value is the fresh id. -/
def create_alert (now : Nat) (title message : String) (alert_type : AlertType)
    (severity : AlertSeverity) (details : List (String × String))
    (expires_at : Option Nat) (st : AlertStore) : AlertStore × Nat :=
  let a : AlertRecord :=
    { id := st.length
      title := title
      message := message
      alert_type := alert_type.toVal
      severity := severity.toVal
      data_source := details
      is_active := true
      is_read := false
      created_at := now
      expires_at := expires_at.getD (now + 24 * 3600) }
  (st ++ [a], st.length)

/-- Embedding of `AlertService.check_weather_conditions` (lines 429-457): the
threshold is the literal 35, the observed temperature the literal 38; since
38 > 35 the body always calls `create_alert` with the heatwave payload. There
is no lookup of previously created alerts and no suppression logic of any
kind before the `create_alert` call. -/
def check_weather_conditions (now : Nat) (st : AlertStore) : AlertStore :=
  let temperature_threshold : Int := 35
  let current_temp : Int := 38
  if current_temp > temperature_threshold then
    (create_alert now "Alerte Canicule"
      "Température élevée détectée: 38°C. Risque de stress hydrique pour les cultures."
      .weather .warning
      [("température", "38°C"), ("seuil", "35°C"),
       ("recommandation", "Augmenter l\x27irrigation si possible")]
      none st).1
  else st

/-- Embedding of `AlertService.check_price_variations` (lines 459-487): the
drop threshold is the literal -15, the observed variation the literal -18;
since -18 < -15 the body always calls `create_alert` with the cocoa-price
payload, again with no suppression logic. -/
def check_price_variations (now : Nat) (st : AlertStore) : AlertStore :=
  let price_drop_threshold : Int := -15
  let cacao_variation : Int := -18
  if cacao_variation < price_drop_threshold then
    (create_alert now "Chute des Prix du Cacao"
      "Le prix du cacao a chuté de 18% cette semaine."
      .price .critical
      [("variation", "-18%"), ("prix_actuel", "2,450 USD/tonne"),
       ("prix_précédent", "2,990 USD/tonne"), ("impact", "Revenus agriculteurs affectés")]
      none st).1
  else st

/-- Embedding of `run_alert_checks` (lines 558-565): runs the weather check
then the price check. -/
def run_alert_checks (now : Nat) (st : AlertStore) : AlertStore :=
  check_price_variations now (check_weather_conditions now st)

/-- Embedding of `AlertService.mark_alert_as_read` (lines 526-541). The body
evaluates `select(Alert)...`, but the name `select` is not bound in that
method: the module has no top-level `from sqlalchemy import select`, and the
local imports of `select` inside `get_active_alerts` and
`_get_users_for_alert` bind it only in those functions. Evaluating the name
therefore raises `NameError` before any row is read or written; the bare
`except Exception` on line 540 catches it and only prints. The observable
effect is: the store is returned unchanged and the caught error message is
logged; the function never raises to its caller and never sets `is_read`.
The second component models the logged exception text. -/
def mark_alert_as_read (alert_id : Nat) (st : AlertStore) : AlertStore × Option String :=
  (st, some "NameError: name select is not defined")

/-! ## Connection registry (`ConnectionManager`, websocket.py lines 14-63) -/

/-- Embedding of one WebSocket connection object: an identity, its client
state (`connected` models `client_state == WebSocketState.CONNECTED`), and
whether its `send_text` raises when called. -/
structure Conn where
  cid : Nat
  connected : Bool
  send_fails : Bool
deriving Repr, DecidableEq

/-- Embedding of `active_connections: Dict[str, List[WebSocket]]` as an
insertion-ordered association list, matching CPython dict semantics. -/
abbrev Registry := List (String × List Conn)

/-- Dict lookup `active_connections[user_id]`, returning `none` when
`user_id not in active_connections`. -/
def lookupConns (uid : String) : Registry → Option (List Conn)
  | [] => none
  | p :: rest => if p.1 = uid then some p.2 else lookupConns uid rest

/-- Embedding of `list.remove(x)`: removes the first element equal to `x`;
returns the list unchanged when `x` is absent (the source wraps the call in
`try ... except ValueError: pass`, so absence has no effect). -/
def removeFirst (c : Conn) : List Conn → List Conn
  | [] => []
  | d :: t => if d = c then t else d :: removeFirst c t

/-- Embedding of `ConnectionManager.connect` (lines 20-26): creates the
user entry when absent (new dict keys append at the end of iteration order),
then appends the connection to the user list. -/
def connect (c : Conn) (uid : String) (st : Registry) : Registry :=
  match lookupConns uid st with
  | some _ => st.map (fun p => if p.1 = uid then (p.1, p.2 ++ [c]) else p)
  | none => st ++ [(uid, [c])]

/-- Embedding of `ConnectionManager.disconnect` (lines 28-37): when the user
key exists, remove the first occurrence of the connection (an absent
connection raises `ValueError`, swallowed by the `except`, leaving the state
unchanged); when the user list becomes empty, `del` the key. -/
def disconnect (c : Conn) (uid : String) (st : Registry) : Registry :=
  match lookupConns uid st with
  | none => st
  | some conns =>
    if c ∈ conns then
      if removeFirst c conns = [] then st.filter (fun p => p.1 != uid)
      else st.map (fun p => if p.1 = uid then (p.1, removeFirst c conns) else p)
    else st

/-- The per-connection success test of the send loop in
`send_personal_message`: the message is handed to a connection exactly when
its client state is CONNECTED and `send_text` does not raise. -/
def delivered_ok (c : Conn) : Bool := c.connected && !c.send_fails

/-- The pruning pass at the end of `send_personal_message`:
`for conn in disconnected: self.disconnect(conn, user_id)`. -/
def foldDisc (uid : String) (ds : List Conn) (st : Registry) : Registry :=
  ds.foldl (fun s c => disconnect c uid s) st

/-- The cumulative effect of the pruning pass on one user list: remove, in
order, the first occurrence of each element of `ds` from `l`. -/
def foldRemove (ds l : List Conn) : List Conn :=
  ds.foldl (fun acc c => removeFirst c acc) l

/-- Observable result of one `send_personal_message` call: the registry after
the pruning pass, the connections the message was actually handed to, the
number of exceptions caught and logged in the send loop, and the Python
return value. The source function has no `return` statement, so its return
value is `None`, modelled as `Option.none` (a returned delivery count would
be `some n`). -/
structure SendResult where
  registry : Registry
  delivered : List Conn
  errors_logged : Nat
  ret : Option Nat
deriving Repr, DecidableEq

/-- Embedding of `ConnectionManager.send_personal_message` (lines 39-55).
When the user key is absent the body is skipped entirely. Otherwise the loop
visits every connection in the user list: CONNECTED connections get a
`send_text` attempt whose failure is caught and recorded in `disconnected`;
non-CONNECTED connections are recorded in `disconnected` without an attempt.
After the loop each collected connection is pruned via `disconnect`. -/
def send_personal_message (uid : String) (st : Registry) : SendResult :=
  match lookupConns uid st with
  | none => ⟨st, [], 0, none⟩
  | some conns =>
    ⟨foldDisc uid (conns.filter fun c => !(delivered_ok c)) st,
     conns.filter delivered_ok,
     (conns.filter fun c => c.connected && c.send_fails).length,
     none⟩

/-- Observable result of one `broadcast` call: the final registry, the
deliveries per visited user, and whether the dict iteration raised
`RuntimeError: dictionary changed size during iteration`. -/
structure BroadcastResult where
  registry : Registry
  delivered : List (String × List Conn)
  runtime_error : Bool
deriving Repr, DecidableEq

/-- The `for user_id, connections in self.active_connections.items()` loop of
`broadcast`. A CPython dict iterator records the dict size at creation and
every `next()` call, including the final one that would raise StopIteration,
first checks the current size against it, raising `RuntimeError` on any
change; `disconnect` shrinks the dict whenever pruning empties a user list.
`origSize` is the recorded size, the `List String` argument the key sequence
of the dict at loop entry. -/
def broadcastGo (origSize : Nat) : List String → Registry → List (String × List Conn) →
    BroadcastResult
  | [], st, acc => ⟨st, acc.reverse, st.length != origSize⟩
  | u :: rest, st, acc =>
    if st.length != origSize then ⟨st, acc.reverse, true⟩
    else
      let r := send_personal_message u st
      broadcastGo origSize rest r.registry ((u, r.delivered) :: acc)

/-- Embedding of `ConnectionManager.broadcast` (lines 57-60): iterate the
live dict view, calling `send_personal_message` for each user id. -/
def broadcast (st : Registry) : BroadcastResult :=
  broadcastGo st.length (st.map (fun p => p.1)) st []

/-- The three registry operations a client can invoke. -/
inductive RegOp
  | conn (c : Conn) (uid : String)
  | disc (c : Conn) (uid : String)
  | send (uid : String)
deriving Repr, DecidableEq

/-- One registry operation applied to a state. -/
def step (st : Registry) : RegOp → Registry
  | .conn c uid => connect c uid st
  | .disc c uid => disconnect c uid st
  | .send uid => (send_personal_message uid st).registry

/-- The registry reached from the initial empty `active_connections` by a
sequence of operations. -/
def run (ops : List RegOp) : Registry := ops.foldl step []

/-- Registry invariant: every present user key maps to a non-empty
connection list. -/
def RegInv (st : Registry) : Prop := ∀ p ∈ st, p.2 ≠ []

/-! ## Notification dispatcher (`NotificationService`, notifications.py lines 90-210) -/

/-- The configuration and provider-failure environment of one
`NotificationService` instance: whether `SMTP_HOST` is configured (truthy),
whether the Twilio client was constructed (both credentials present), and
whether the respective provider call raises when attempted. -/
structure NotifConfig where
  smtp_host : Bool
  twilio_client : Bool
  email_send_fails : Bool
  sms_send_fails : Bool
deriving Repr, DecidableEq

/-- The user fields the dispatcher reads. -/
structure NUser where
  email : Option String
  phone_number : Option String
deriving Repr, DecidableEq

/-- Embedding of the `NotificationChannel` str-enum. -/
inductive Channel
  | email | sms | push | websocket | slack | telegram
deriving Repr, DecidableEq

/-- A per-channel delivery outcome, as the specification describes it. The
source never constructs such a value; the type exists to state what the
return value of `send_notification` would have to contain. -/
inductive Outcome
  | success | transient_failure | permanent_failure
deriving Repr, DecidableEq

/-- Observable side effects of the channel senders. -/
inductive Effect
  | email_sent (dest : String)
  | sms_sent (dest : String)
  | ws_sent (uid : String)
  | push_todo
  | error_logged (chan : String)
deriving Repr, DecidableEq

/-- Embedding of `NotificationService._send_email` (lines 132-163): returns
immediately when `SMTP_HOST` is not configured or the user has no email;
otherwise attempts the SMTP send, catching any exception and logging it. -/
def send_email_effects (cfg : NotifConfig) (u : NUser) : List Effect :=
  match cfg.smtp_host, u.email with
  | false, _ => []
  | true, none => []
  | true, some addr =>
    if cfg.email_send_fails then [.error_logged "email"] else [.email_sent addr]

/-- Embedding of `NotificationService._send_sms` (lines 165-184): returns
immediately when the Twilio client is absent or the user has no phone number;
otherwise attempts the Twilio send, catching any exception and logging it. -/
def send_sms_effects (cfg : NotifConfig) (u : NUser) : List Effect :=
  match cfg.twilio_client, u.phone_number with
  | false, _ => []
  | true, none => []
  | true, some num =>
    if cfg.sms_send_fails then [.error_logged "sms"] else [.sms_sent num]

/-- The task created for one requested channel in the dispatch loop of
`send_notification` (lines 118-126): EMAIL, SMS, WEBSOCKET and PUSH get their
sender coroutine; any other channel member adds no task. `_send_websocket`
forwards to the registry inside its own try/except and `_send_push_notification`
only prints a TODO line; their effects are recorded as opaque tokens here
since no claim depends on their internals. -/
def channel_task (cfg : NotifConfig) (u : NUser) (uid : String) : Channel → List Effect
  | .email => send_email_effects cfg u
  | .sms => send_sms_effects cfg u
  | .websocket => [.ws_sent uid]
  | .push => [.push_todo]
  | .slack => []
  | .telegram => []

/-- Embedding of `NotificationService.send_notification` (lines 110-130): the
requested channels become independent tasks run by
`asyncio.gather(..., return_exceptions=True)`, so no task failure propagates
or cancels a sibling; each sender additionally catches its own exceptions.
The effect list is the concatenation of the per-channel effects (a
linearization of the concurrent execution; no claim depends on interleaving
order). The function has no `return` statement: its value is `None`, modelled
as `Option.none` of the outcome-map type the specification expects. -/
def send_notification (cfg : NotifConfig) (u : NUser) (uid : String)
    (channels : List Channel) : List Effect × Option (List (Channel × Outcome)) :=
  ((channels.map (channel_task cfg u uid)).flatten, none)

/-! ## Claim theorems: condition evaluator and alert store -/

/-- C5: `AlertCondition.evaluate` applies the operator drawn from the fixed
table {>, <, >=, <=, ==, !=} to (observedValue, threshold) and returns that
comparison; any operator string outside the table evaluates to false; in
particular with operator > and threshold 35, observed 38 yields true,
observed 35 yields false, and the unknown operator ~= yields false. -/
theorem C5_evaluate_operator_table :
    (∀ (m : String) (t v : Rat) (d : Nat),
        (AlertCondition.mk m ">" t d).evaluate v = decide (v > t)
      ∧ (AlertCondition.mk m "<" t d).evaluate v = decide (v < t)
      ∧ (AlertCondition.mk m ">=" t d).evaluate v = decide (v ≥ t)
      ∧ (AlertCondition.mk m "<=" t d).evaluate v = decide (v ≤ t)
      ∧ (AlertCondition.mk m "==" t d).evaluate v = decide (v = t)
      ∧ (AlertCondition.mk m "!=" t d).evaluate v = decide (v ≠ t))
  ∧ (∀ (m op : String) (t v : Rat) (d : Nat),
        op ∉ ([">", "<", ">=", "<=", "==", "!="] : List String) →
        (AlertCondition.mk m op t d).evaluate v = false)
  ∧ (AlertCondition.mk "temperature" ">" 35 0).evaluate 38 = true
  ∧ (AlertCondition.mk "temperature" ">" 35 0).evaluate 35 = false
  ∧ (AlertCondition.mk "temperature" "~=" 35 0).evaluate 38 = false := by
  refine ⟨?_, ?_, by decide, by decide, by decide⟩
  · intro m t v d
    exact ⟨rfl, rfl, rfl, rfl, rfl, rfl⟩
  · intro m op t v d h
    simp only [List.mem_cons, List.not_mem_nil, or_false, not_or] at h
    obtain ⟨h1, h2, h3, h4, h5, h6⟩ := h
    simp [AlertCondition.evaluate, h1, h2, h3, h4, h5, h6]

/-- C5 witness: the unknown-operator clause instantiated at the concrete
operator ~= . -/
theorem C5_evaluate_operator_table_witness :
    ("~=" ∉ ([">", "<", ">=", "<=", "==", "!="] : List String))
  ∧ (AlertCondition.mk "humidity" "~=" 10 0).evaluate 20 = false :=
  ⟨by decide, C5_evaluate_operator_table.2.1 "humidity" "~=" 10 20 0 (by decide)⟩

/-- C1 counterexample: an alert spec with empty title and empty message is
persisted by `create_alert` (the store grows from zero to one record, whose
title is the empty string) and the fresh identifier is returned; no
validation error is reported to the caller. -/
theorem C1_counterexample :
    ((create_alert 0 "" "" .system .info [] none []).1).length = 1
  ∧ ((create_alert 0 "" "" .system .info [] none []).1).map AlertRecord.title = [""]
  ∧ (create_alert 0 "" "" .system .info [] none []).2 = 0 :=
  ⟨rfl, rfl, rfl⟩

/-- C1 amended: `create_alert` performs no validation at all: for every alert
spec, including one whose title or message is empty, exactly one record is
appended to the store and its identifier returned; no synchronous error path
exists (severity is constrained only by the enum type of the argument). -/
theorem C1_create_alert_no_validation (now : Nat) (title message : String)
    (ty : AlertType) (sev : AlertSeverity) (details : List (String × String))
    (e : Option Nat) (st : AlertStore) :
    (create_alert now title message ty sev details e st).1.length = st.length + 1
  ∧ (create_alert now title message ty sev details e st).2 = st.length := by
  simp [create_alert]

/-- C2 counterexample: two consecutive condition-check cycles, both tripping
the temperature condition, persist two heatwave alert records, not one: no
suppression window exists. -/
theorem C2_counterexample :
    ((run_alert_checks 3600 (run_alert_checks 0 [])).filter
        (fun a => a.title == "Alerte Canicule")).length = 2 := by
  rfl

/-- C2 amended: the periodic checks implement no suppression window: every
evaluation whose condition trips calls `create_alert` unconditionally, so a
tripped weather check always appends one record, two tripped checks append
two, and each `run_alert_checks` cycle appends one weather and one price
record. -/
theorem C2_no_suppression (t1 t2 : Nat) (st : AlertStore) :
    (check_weather_conditions t1 st).length = st.length + 1
  ∧ (check_weather_conditions t2 (check_weather_conditions t1 st)).length = st.length + 2
  ∧ (run_alert_checks t1 st).length = st.length + 2 := by
  simp [check_weather_conditions, check_price_variations, run_alert_checks, create_alert]

/-- C9: the record persisted by `create_alert` carries created_at = now, and
expires_at equal to the supplied value when one is given, and to
created_at + 24 hours when the spec omits it. -/
theorem C9_expires_at_default (now : Nat) (title message : String)
    (ty : AlertType) (sev : AlertSeverity) (details : List (String × String))
    (e : Option Nat) (st : AlertStore) :
    ∃ r : AlertRecord,
      (create_alert now title message ty sev details e st).1 = st ++ [r]
    ∧ r.created_at = now
    ∧ r.expires_at = e.getD (r.created_at + 24 * 3600) :=
  ⟨_, rfl, rfl, rfl⟩

/-- C4: evaluation at the failing input: the store holds the known, unread
alert with id 0; `mark_alert_as_read 0` leaves the store unchanged and logs
the caught NameError (the method references `select` without importing it),
so the record is still unread after the call — contradicting the claim that
a call with a known id leaves is_read true. -/
theorem C4_mark_read_never_sets_is_read :
    (mark_alert_as_read 0
        [⟨0, "Alerte Canicule", "m", "weather", "warning", [], true, false, 0, 86400⟩]).1.map
        AlertRecord.is_read = [false]
  ∧ (mark_alert_as_read 0
        [⟨0, "Alerte Canicule", "m", "weather", "warning", [], true, false, 0, 86400⟩]).2
      = some "NameError: name select is not defined" :=
  ⟨rfl, rfl⟩

/-- C3 counterexample: `send_personal_message` does not return a delivery
count: for a user with no registered connections its return value is None
(`Option.none`), not the count zero the claim requires. -/
theorem C3_counterexample :
    (send_personal_message "u1" []).ret = none
  ∧ (send_personal_message "u1" []).ret ≠ some 0 :=
  ⟨rfl, by decide⟩

/-- C3 amended: `send_personal_message` always returns None rather than a
delivery count; a call for a user with no registered live connections is a
silent no-op: registry unchanged, nothing delivered, nothing logged, no error
signalled. -/
theorem C3_send_returns_none :
    (∀ (uid : String) (st : Registry), (send_personal_message uid st).ret = none)
  ∧ ∀ (uid : String) (st : Registry), lookupConns uid st = none →
      (send_personal_message uid st).registry = st
    ∧ (send_personal_message uid st).delivered = []
    ∧ (send_personal_message uid st).errors_logged = 0 := by
  constructor
  · intro uid st
    cases h : lookupConns uid st <;> simp [send_personal_message, h]
  · intro uid st h
    simp [send_personal_message, h]

/-- C3 witness: the no-connection clause instantiated on the empty registry. -/
theorem C3_send_returns_none_witness :
    (send_personal_message "u9" ([] : Registry)).ret = none
  ∧ (send_personal_message "u9" ([] : Registry)).registry = []
  ∧ (send_personal_message "u9" ([] : Registry)).delivered = []
  ∧ (send_personal_message "u9" ([] : Registry)).errors_logged = 0 :=
  ⟨C3_send_returns_none.1 "u9" [], C3_send_returns_none.2 "u9" [] rfl⟩

/-! ## Registry lemmas -/

theorem removeFirst_not_mem (c : Conn) (l : List Conn) (h : c ∉ l) :
    removeFirst c l = l := by
  induction l with
  | nil => rfl
  | cons a t ih =>
    simp only [List.mem_cons, not_or] at h
    simp only [removeFirst]
    rw [if_neg (fun he => h.1 he.symm), ih h.2]

theorem foldRemove_cons (c : Conn) (ds l : List Conn) :
    foldRemove (c :: ds) l = foldRemove ds (removeFirst c l) := rfl

theorem foldRemove_nil_start (ds : List Conn) : foldRemove ds [] = [] := by
  induction ds with
  | nil => rfl
  | cons c t ih =>
    rw [foldRemove_cons]
    exact ih

theorem foldRemove_cons_keep (a : Conn) (ds : List Conn) :
    ∀ t : List Conn, (∀ c ∈ ds, c ≠ a) →
      foldRemove ds (a :: t) = a :: foldRemove ds t := by
  induction ds with
  | nil => intro t _; rfl
  | cons c ds' ih =>
    intro t h
    have hca : ¬(a = c) := fun he => h c (List.mem_cons_self c ds') he.symm
    rw [foldRemove_cons, foldRemove_cons,
        show removeFirst c (a :: t) = a :: removeFirst c t from by
          simp only [removeFirst, if_neg hca]]
    exact ih (removeFirst c t) (fun x hx => h x (List.mem_cons_of_mem c hx))

theorem foldRemove_filter_not (q : Conn → Bool) (l : List Conn) :
    foldRemove (l.filter (fun c => !(q c))) l = l.filter q := by
  induction l with
  | nil => rfl
  | cons a t ih =>
    cases hq : q a with
    | true =>
      simp only [List.filter_cons, hq, Bool.not_true, if_true, if_false,
        Bool.false_eq_true, reduceIte]
      have hne : ∀ c ∈ t.filter (fun c => !(q c)), c ≠ a := by
        intro c hc he
        subst he
        have := (List.mem_filter.mp hc).2
        simp [hq] at this
      rw [foldRemove_cons_keep a _ t hne, ih]
    | false =>
      simp only [List.filter_cons, hq, Bool.not_false, if_true, if_false,
        Bool.false_eq_true, reduceIte]
      rw [foldRemove_cons,
        show removeFirst a (a :: t) = t from by simp [removeFirst]]
      exact ih

theorem lookup_filter_out (uid : String) (st : Registry) :
    lookupConns uid (st.filter (fun p => p.1 != uid)) = none := by
  induction st with
  | nil => rfl
  | cons q rest ih =>
    by_cases h : q.1 = uid
    · simp [List.filter_cons, h, ih]
    · simp [List.filter_cons, h, lookupConns, ih]

theorem lookup_update (uid : String) (l' : List Conn) (st : Registry) (l : List Conn)
    (h : lookupConns uid st = some l) :
    lookupConns uid (st.map (fun p => if p.1 = uid then (p.1, l') else p)) = some l' := by
  induction st with
  | nil => simp [lookupConns] at h
  | cons q rest ih =>
    by_cases hq : q.1 = uid
    · simp [lookupConns, hq]
    · simp only [lookupConns, if_neg hq] at h
      simp only [List.map_cons, if_neg hq, lookupConns]
      exact ih h

theorem disconnect_not_found (c : Conn) (uid : String) (st : Registry)
    (h : lookupConns uid st = none) : disconnect c uid st = st := by
  simp [disconnect, h]

theorem disconnect_lookup (c : Conn) (uid : String) (st : Registry) (l : List Conn)
    (h : lookupConns uid st = some l) (hne : l ≠ []) :
    lookupConns uid (disconnect c uid st) =
      (if removeFirst c l = [] then none else some (removeFirst c l)) := by
  simp only [disconnect, h]
  by_cases hc : c ∈ l
  · rw [if_pos hc]
    by_cases hr : removeFirst c l = []
    · rw [if_pos hr, if_pos hr]
      exact lookup_filter_out uid st
    · rw [if_neg hr, if_neg hr]
      exact lookup_update uid (removeFirst c l) st l h
  · rw [if_neg hc, removeFirst_not_mem c l hc, if_neg hne, h]

theorem foldDisc_not_found (uid : String) (ds : List Conn) :
    ∀ st : Registry, lookupConns uid st = none → foldDisc uid ds st = st := by
  induction ds with
  | nil => intro st _; rfl
  | cons c ds' ih =>
    intro st h
    show foldDisc uid ds' (disconnect c uid st) = st
    rw [disconnect_not_found c uid st h]
    exact ih st h

theorem foldDisc_lookup (uid : String) (ds : List Conn) :
    ∀ (st : Registry) (l : List Conn), lookupConns uid st = some l → l ≠ [] →
      lookupConns uid (foldDisc uid ds st) =
        (if foldRemove ds l = [] then none else some (foldRemove ds l)) := by
  induction ds with
  | nil =>
    intro st l h hne
    show lookupConns uid st = (if l = [] then none else some l)
    rw [if_neg hne, h]
  | cons c ds' ih =>
    intro st l h hne
    rw [show foldDisc uid (c :: ds') st = foldDisc uid ds' (disconnect c uid st) from rfl,
        foldRemove_cons]
    by_cases hr : removeFirst c l = []
    · have hnone : lookupConns uid (disconnect c uid st) = none := by
        rw [disconnect_lookup c uid st l h hne, if_pos hr]
      rw [foldDisc_not_found uid ds' _ hnone, hnone, hr, foldRemove_nil_start]
      simp
    · have hsome : lookupConns uid (disconnect c uid st) = some (removeFirst c l) := by
        rw [disconnect_lookup c uid st l h hne, if_neg hr]
      exact ih (disconnect c uid st) (removeFirst c l) hsome hr

/-! ## Claim theorems: registry -/

/-- C8: for every `send_personal_message` call on a user with registered
connections, the message is handed to exactly the connections that are open
and whose send succeeds — so a failure or non-open state on one connection
never stops delivery to the other connections registered at call time — and
every failing or non-open connection is pruned from the registry within the
same call (the user key itself is deleted when none survive). -/
theorem C8_failure_prunes_not_blocks (uid : String) (st : Registry) (conns : List Conn)
    (h : lookupConns uid st = some conns) (hne : conns ≠ []) :
    (send_personal_message uid st).delivered = conns.filter delivered_ok
  ∧ lookupConns uid (send_personal_message uid st).registry =
      (if conns.filter delivered_ok = [] then none else some (conns.filter delivered_ok))
  ∧ ∀ c ∈ conns, delivered_ok c = false →
      ∀ l, lookupConns uid (send_personal_message uid st).registry = some l → c ∉ l := by
  have hreg : (send_personal_message uid st).registry
      = foldDisc uid (conns.filter fun c => !(delivered_ok c)) st := by
    simp [send_personal_message, h]
  have hdel : (send_personal_message uid st).delivered = conns.filter delivered_ok := by
    simp [send_personal_message, h]
  have hmain : lookupConns uid (send_personal_message uid st).registry =
      (if conns.filter delivered_ok = [] then none else some (conns.filter delivered_ok)) := by
    rw [hreg, foldDisc_lookup uid _ st conns h hne, foldRemove_filter_not]
  refine ⟨hdel, hmain, ?_⟩
  intro c hc hbad l hl
  rw [hmain] at hl
  by_cases hg : conns.filter delivered_ok = []
  · rw [if_pos hg] at hl
    exact Option.noConfusion hl
  · rw [if_neg hg] at hl
    have hfl : conns.filter delivered_ok = l := Option.some.inj hl
    subst hfl
    intro hmem
    have := (List.mem_filter.mp hmem).2
    rw [hbad] at this
    exact Bool.false_ne_true this

/-- C8 witness: a user with two healthy connections, one whose send fails and
one that is not open: the two healthy connections receive the message and the
two bad ones are pruned. -/
theorem C8_failure_prunes_not_blocks_witness :
    (send_personal_message "u1"
        [("u1", [⟨1, true, false⟩, ⟨2, true, true⟩, ⟨3, false, false⟩,
                 ⟨4, true, false⟩])]).delivered
      = [⟨1, true, false⟩, ⟨4, true, false⟩]
  ∧ lookupConns "u1"
      (send_personal_message "u1"
        [("u1", [⟨1, true, false⟩, ⟨2, true, true⟩, ⟨3, false, false⟩,
                 ⟨4, true, false⟩])]).registry
      = some [⟨1, true, false⟩, ⟨4, true, false⟩] := by
  have h := C8_failure_prunes_not_blocks "u1"
    [("u1", [⟨1, true, false⟩, ⟨2, true, true⟩, ⟨3, false, false⟩, ⟨4, true, false⟩])]
    [⟨1, true, false⟩, ⟨2, true, true⟩, ⟨3, false, false⟩, ⟨4, true, false⟩]
    (by decide) (by decide)
  refine ⟨?_, ?_⟩
  · rw [h.1]
    decide
  · rw [h.2.1]
    decide

theorem inv_connect (c : Conn) (uid : String) (st : Registry) (h : RegInv st) :
    RegInv (connect c uid st) := by
  unfold connect
  cases hl : lookupConns uid st with
  | some l =>
    intro p hp
    obtain ⟨q, hq, hfq⟩ := List.mem_map.mp hp
    by_cases hq1 : q.1 = uid
    · rw [if_pos hq1] at hfq
      subst hfq
      simp
    · rw [if_neg hq1] at hfq
      subst hfq
      exact h q hq
  | none =>
    intro p hp
    rcases List.mem_append.mp hp with h1 | h2
    · exact h p h1
    · simp only [List.mem_singleton] at h2
      subst h2
      simp

theorem inv_disconnect (c : Conn) (uid : String) (st : Registry) (h : RegInv st) :
    RegInv (disconnect c uid st) := by
  cases hl : lookupConns uid st with
  | none =>
    rw [disconnect_not_found c uid st hl]
    exact h
  | some l =>
    simp only [disconnect, hl]
    by_cases hc : c ∈ l
    · rw [if_pos hc]
      by_cases hr : removeFirst c l = []
      · rw [if_pos hr]
        intro p hp
        exact h p (List.mem_of_mem_filter hp)
      · rw [if_neg hr]
        intro p hp
        obtain ⟨q, hq, hfq⟩ := List.mem_map.mp hp
        by_cases hq1 : q.1 = uid
        · rw [if_pos hq1] at hfq
          subst hfq
          exact hr
        · rw [if_neg hq1] at hfq
          subst hfq
          exact h q hq
    · rw [if_neg hc]
      exact h

theorem inv_foldDisc (uid : String) (ds : List Conn) :
    ∀ st : Registry, RegInv st → RegInv (foldDisc uid ds st) := by
  induction ds with
  | nil => intro st h; exact h
  | cons c ds' ih =>
    intro st h
    exact ih (disconnect c uid st) (inv_disconnect c uid st h)

theorem inv_send (uid : String) (st : Registry) (h : RegInv st) :
    RegInv (send_personal_message uid st).registry := by
  cases hl : lookupConns uid st with
  | none =>
    simp only [send_personal_message, hl]
    exact h
  | some l =>
    simp only [send_personal_message, hl]
    exact inv_foldDisc uid _ st h

theorem inv_step (op : RegOp) (st : Registry) (h : RegInv st) : RegInv (step st op) := by
  cases op with
  | conn c uid => exact inv_connect c uid st h
  | disc c uid => exact inv_disconnect c uid st h
  | send uid => exact inv_send uid st h

theorem inv_run_from (ops : List RegOp) :
    ∀ st : Registry, RegInv st → RegInv (ops.foldl step st) := by
  induction ops with
  | nil => intro st h; exact h
  | cons op rest ih =>
    intro st h
    exact ih (step st op) (inv_step op st h)

/-- C10: after any sequence of connect, disconnect and send_personal_message
operations starting from the empty registry, every user id present as a key
in active_connections maps to a non-empty connection list: removing the last
connection of a user also removes the key. -/
theorem C10_registry_keys_nonempty (ops : List RegOp) :
    ((run ops).all fun p => !(p.2.isEmpty)) = true := by
  have h : RegInv (run ops) := inv_run_from ops [] (by intro p hp; cases hp)
  rw [List.all_eq_true]
  intro p hp
  have hne := h p hp
  cases hl : p.2 with
  | nil => exact absurd hl hne
  | cons a t => rfl

/-- C6: evaluation at the failing input: user u1 owns a single dead
connection and user u2 a live one. `broadcast` prunes the dead connection,
which deletes key u1 from the dict while `items()` is being iterated, so the
next iterator step raises RuntimeError: u2 is never visited and its live
connection receives nothing, contradicting the claim that pruning never
aborts or skips delivery to other connections or users in the same
broadcast. -/
theorem C6_broadcast_aborted_by_prune :
    (broadcast [("u1", [⟨1, false, false⟩]), ("u2", [⟨2, true, false⟩])]).runtime_error = true
  ∧ (broadcast [("u1", [⟨1, false, false⟩]), ("u2", [⟨2, true, false⟩])]).delivered
      = [("u1", [])]
  ∧ lookupConns "u2"
      (broadcast [("u1", [⟨1, false, false⟩]), ("u2", [⟨2, true, false⟩])]).registry
      = some [⟨2, true, false⟩] := by
  refine ⟨by decide, by decide, by decide⟩

/-! ## Claim theorems: dispatcher -/

/-- C7 counterexample: dispatching to [EMAIL, SMS] with both providers
configured and the SMS provider failing yields no per-channel outcome map at
all: `send_notification` returns None, so no Success outcome for EMAIL is
reported to the caller. -/
theorem C7_counterexample :
    (send_notification ⟨true, true, false, true⟩ ⟨some "a@b.c", some "+22890000000"⟩ "u1"
        [Channel.email, Channel.sms]).2 = none
  ∧ (send_notification ⟨true, true, false, true⟩ ⟨some "a@b.c", some "+22890000000"⟩ "u1"
        [Channel.email, Channel.sms]).2.isSome = false :=
  ⟨rfl, rfl⟩

/-- C7 amended: a failure on one channel never cancels or blocks the other
channels in the same call — each sender catches its own exceptions and the
gather call collects exceptions instead of propagating them — so dispatching
to [EMAIL, SMS] with a failing SMS provider still performs the EMAIL send;
however no per-channel outcome map is produced: the call returns None and the
SMS failure is only logged. -/
theorem C7_channel_isolation (cfg : NotifConfig) (u : NUser) (uid addr : String)
    (hmail : u.email = some addr) (hsmtp : cfg.smtp_host = true)
    (hok : cfg.email_send_fails = false) :
    Effect.email_sent addr ∈
      (send_notification cfg u uid [Channel.email, Channel.sms]).1
  ∧ (send_notification cfg u uid [Channel.email, Channel.sms]).2 = none := by
  constructor
  · simp [send_notification, channel_task, send_email_effects, hmail, hsmtp, hok]
  · rfl

/-- C7 witness: the isolation theorem at a concrete configuration whose SMS
provider fails: the EMAIL effect still happens. -/
theorem C7_channel_isolation_witness :
    Effect.email_sent "a@b.c" ∈
      (send_notification ⟨true, true, false, true⟩ ⟨some "a@b.c", some "+22890000000"⟩ "u1"
        [Channel.email, Channel.sms]).1
  ∧ (send_notification ⟨true, true, false, true⟩ ⟨some "a@b.c", some "+22890000000"⟩ "u1"
        [Channel.email, Channel.sms]).2 = none :=
  C7_channel_isolation ⟨true, true, false, true⟩ ⟨some "a@b.c", some "+22890000000"⟩ "u1"
    "a@b.c" rfl rfl rfl

end AgriIntel
